import Mathlib

/-!
Verification of the dependency extraction and staleness classification engine
of the flutter-pub-explorer VS Code extension
(`src/installedPackagesViewProvider.ts`).

The TypeScript source is shallowly embedded: every definition below is a
direct translation of a function or expression of the source file, with
JavaScript string/number semantics made explicit on `List Char` / `Int`.
-/

/-- Character class of the JavaScript regex `\s` restricted to the ASCII
whitespace characters (space, tab, line feed, vertical tab, form feed,
carriage return).  The Unicode space code points also matched by `\s` are
not modelled; no claim involves them. -/
def isJsSpace (c : Char) : Bool :=
  c == ' ' || c == '\t' || c == '\n' || c == '\x0b' || c == '\x0c' || c == '\r'

/-- The single-quote character, written via its code point. -/
def quoteChar : Char := Char.ofNat 39

/-- A double or single quote, the class `["']` of the source regexes. -/
def isQuote (c : Char) : Bool := c == '"' || c == quoteChar

/-- JavaScript `String.prototype.trim()` (ASCII whitespace fragment). -/
def jsTrim (s : String) : String :=
  ⟨((s.data.dropWhile isJsSpace).reverse.dropWhile isJsSpace).reverse⟩

/-- Worker for `splitLines`: accumulates the current line in reverse. -/
def splitLinesAux : List Char → List Char → List String
  | [], acc => [⟨acc.reverse⟩]
  | '\n' :: cs, acc => (⟨acc.reverse⟩ : String) :: splitLinesAux cs []
  | c :: cs, acc => splitLinesAux cs (c :: acc)

/-- JavaScript `content.split('\n')` (line 200 of the source):
`""` yields `[""]`, and a trailing newline yields a trailing empty line. -/
def splitLines (s : String) : List String := splitLinesAux s.data []

/-- Does the character list start with the given pattern list? -/
def charsStart : List Char → List Char → Bool
  | [], _ => true
  | _ :: _, [] => false
  | p :: ps, c :: cs => p == c && charsStart ps cs

/-- JavaScript `s.startsWith(pat)`. -/
def strStarts (s pat : String) : Bool := charsStart pat.data s.data

/-- JavaScript `s.endsWith(pat)`. -/
def strEnds (s pat : String) : Bool := charsStart pat.data.reverse s.data.reverse

/-- Drop an exact literal from the front of a character list, or fail. -/
def dropLit : List Char → List Char → Option (List Char)
  | [], cs => some cs
  | _ :: _, [] => none
  | p :: ps, c :: cs => if p == c then dropLit ps cs else none

/-- The anchored header regexes `/^dependencies:\s*$/` and
`/^dev_dependencies:\s*$/` (lines 212 and 218 of the source), generic in the
keyword: the raw (untrimmed) line is exactly the keyword, a colon, and
trailing whitespace. -/
def headerMatches (line keyword : String) : Bool :=
  match dropLit (keyword.data ++ [':']) line.data with
  | some rest => rest.all isJsSpace
  | none => false

/-- Code-unit lexicographic strict order on character lists.  This models
JavaScript `localeCompare` returning a negative value; for the lower-case
ASCII package names produced by the extractor the locale-aware order
coincides with code-unit order. -/
def charsLt : List Char → List Char → Bool
  | _, [] => false
  | [], _ :: _ => true
  | a :: as, b :: bs =>
    if a.toNat < b.toNat then true
    else if b.toNat < a.toNat then false
    else charsLt as bs

/-- Strict string order used to model `localeCompare`. -/
def strLt (a b : String) : Bool := charsLt a.data b.data

/-! ## Version comparator (`isVersionOutdated`, source lines 281-298) -/

/-- The character class `[\^~>=<\s"']` of the `replace` calls on source
lines 287-288. -/
def isVerStrip (c : Char) : Bool :=
  c == '^' || c == '~' || c == '>' || c == '=' || c == '<' ||
  c == '"' || c == quoteChar || isJsSpace c

/-- `version.replace(/[\^~>=<\s"']/g, '')`: remove every stripped character. -/
def stripVersionChars (s : String) : List Char :=
  s.data.filter (fun c => !isVerStrip c)

/-- Worker for splitting on `'.'`, accumulating the current component in
reverse; models JavaScript `split('.')`. -/
def splitOnDotAux : List Char → List Char → List (List Char)
  | [], acc => [acc.reverse]
  | '.' :: cs, acc => acc.reverse :: splitOnDotAux cs []
  | c :: cs, acc => splitOnDotAux cs (c :: acc)

/-- Decimal value of a digit list (most significant first). -/
def digitsVal : List Char → Nat → Nat
  | [], acc => acc
  | c :: cs, acc => digitsVal cs (acc * 10 + (c.toNat - 48))

/-- JavaScript `Number(component) || 0` for one dot-separated component, as
used on source lines 287-291: the empty string gives `0`; an optional sign
followed by decimal digits gives the signed integer value; any other
component is `NaN` under `Number` and is coerced to `0` by `|| 0`.
(The exotic `Number` forms - hexadecimal, exponent, `Infinity` - cannot
denote a version component and are not modelled.) -/
def jsNumComponent (cs : List Char) : Int :=
  if cs.isEmpty then 0
  else if cs.all Char.isDigit then Int.ofNat (digitsVal cs 0)
  else
    match cs with
    | '-' :: rest =>
      if !rest.isEmpty && rest.all Char.isDigit then -(Int.ofNat (digitsVal rest 0)) else 0
    | '+' :: rest =>
      if !rest.isEmpty && rest.all Char.isDigit then Int.ofNat (digitsVal rest 0) else 0
    | _ => 0

/-- `currentVersion.replace(...).split('.').map(Number)` with the `|| 0`
coercion of each used entry (source lines 287-291). -/
def versionParts (s : String) : List Int :=
  (splitOnDotAux (stripVersionChars s) []).map jsNumComponent

/-- `current[i] || 0`: the i-th component, `0` when absent. -/
def partAt (s : String) (i : Nat) : Int := (versionParts s).getD i 0

/-- The three compared components (the loop on line 290 runs `i = 0..2`). -/
def versionTriple (s : String) : Int × Int × Int :=
  (partAt s 0, partAt s 1, partAt s 2)

/-- The unrolled comparison loop of source lines 290-297: at the first
component where latest exceeds current return `true`, where current exceeds
latest return `false`; `false` when all three are equal. -/
def outdatedTriples (c l : Int × Int × Int) : Bool :=
  if c.1 < l.1 then true
  else if l.1 < c.1 then false
  else if c.2.1 < l.2.1 then true
  else if l.2.1 < c.2.1 then false
  else if c.2.2 < l.2.2 then true
  else if l.2.2 < c.2.2 then false
  else false

/-- `isVersionOutdated` (source lines 281-298).  The guard on lines 282-285
models JavaScript truthiness of the two strings (only the empty string is
falsy) and the three sentinel comparisons. -/
def isVersionOutdated (currentVersion latestVersion : String) : Bool :=
  if currentVersion = "" || latestVersion = "" || currentVersion = "any" ||
     currentVersion = "path" || currentVersion = "git" then false
  else outdatedTriples (versionTriple currentVersion) (versionTriple latestVersion)

/-- The comparison as worded by the specification: at the first *differing*
component, outdated iff latest's value is strictly greater; `false` when all
three components are equal.  Stated separately from `outdatedTriples` so that
the two formulations can be proved equal. -/
def firstDiffOutdated (c l : Int × Int × Int) : Bool :=
  if c.1 ≠ l.1 then decide (c.1 < l.1)
  else if c.2.1 ≠ l.2.1 then decide (c.2.1 < l.2.1)
  else if c.2.2 ≠ l.2.2 then decide (c.2.2 < l.2.2)
  else false

/-- The specification's description of the comparator, applied to the same
stripped/split/parsed components as the source. -/
def isOutdatedSpec (current latest : String) : Bool :=
  firstDiffOutdated (versionTriple current) (versionTriple latest)

/-! ## Manifest parser (`parsePubspecDependencies`, source lines 198-279) -/

/-- One extracted `{ name, version }` record (source line 198). -/
structure DeclaredDependency where
  name : String
  version : String
deriving DecidableEq, Repr

/-- The class `[a-z_]` under the `i` flag: an ASCII letter or underscore. -/
def isNameStart (c : Char) : Bool := c.isAlpha || c == '_'

/-- The class `[a-z0-9_]` under the `i` flag. -/
def isNameChar (c : Char) : Bool := c.isAlphanum || c == '_'

/-- The common front `^([a-z_][a-z0-9_]*)\s*:` of the four dependency-line
regexes (source lines 231, 240, 249, 258): a package-name token, optional
whitespace, and a colon.  Returns the captured name and the remaining
characters.  The character classes involved are pairwise disjoint, so
greedy matching is deterministic and models regex backtracking exactly. -/
def matchNameColon : List Char → Option (String × List Char)
  | [] => none
  | c :: cs =>
    if isNameStart c then
      let rest := cs.dropWhile isNameChar
      match rest.dropWhile isJsSpace with
      | ':' :: r => some (⟨c :: cs.takeWhile isNameChar⟩, r)
      | _ => none
    else none

/-- The core `\d+\.\d+\.\d+` of the version regexes: three nonempty digit
runs separated by literal dots.  Returns the matched characters and the
rest. -/
def parseVersionCore (cs : List Char) : Option (List Char × List Char) :=
  let d1 := cs.takeWhile Char.isDigit
  if d1.isEmpty then none
  else
    match cs.dropWhile Char.isDigit with
    | '.' :: r1 =>
      let d2 := r1.takeWhile Char.isDigit
      if d2.isEmpty then none
      else
        match r1.dropWhile Char.isDigit with
        | '.' :: r2 =>
          let d3 := r2.takeWhile Char.isDigit
          if d3.isEmpty then none
          else some (d1 ++ '.' :: d2 ++ '.' :: d3, r2.dropWhile Char.isDigit)
        | _ => none
    | _ => none

/-- `simpleMatch`, regex `/^([a-z_][a-z0-9_]*)\s*:\s*[\^~]?(\d+\.\d+\.\d+[^\s]*)\s*$/i`
(source line 231).  The capture keeps the numeric core and any non-space
suffix; the operator prefix is not captured. -/
def matchSimple (t : String) : Option DeclaredDependency :=
  match matchNameColon t.data with
  | none => none
  | some (nm, r0) =>
    let r1 := r0.dropWhile isJsSpace
    let r2 := match r1 with
      | c :: cs => if c == '^' || c == '~' then cs else r1
      | [] => r1
    match parseVersionCore r2 with
    | none => none
    | some (core, r3) =>
      let suf := r3.takeWhile (fun c => !isJsSpace c)
      let r4 := (r3.dropWhile (fun c => !isJsSpace c)).dropWhile isJsSpace
      if r4.isEmpty then some ⟨nm, ⟨core ++ suf⟩⟩ else none

/-- `caretMatch`, regex
`/^([a-z_][a-z0-9_]*)\s*:\s*["']?[\^~]?(\d+\.\d+\.\d+[^"'\s]*)["']?\s*$/i`
(source line 240): like `matchSimple` but the version may be wrapped in
quotes, and the captured suffix excludes quote characters. -/
def matchCaret (t : String) : Option DeclaredDependency :=
  match matchNameColon t.data with
  | none => none
  | some (nm, r0) =>
    let r1 := r0.dropWhile isJsSpace
    let r2 := match r1 with
      | c :: cs => if isQuote c then cs else r1
      | [] => r1
    let r3 := match r2 with
      | c :: cs => if c == '^' || c == '~' then cs else r2
      | [] => r2
    match parseVersionCore r3 with
    | none => none
    | some (core, r4) =>
      let suf := r4.takeWhile (fun c => !(isQuote c || isJsSpace c))
      let r5 := r4.dropWhile (fun c => !(isQuote c || isJsSpace c))
      let r6 := match r5 with
        | c :: cs => if isQuote c then cs else r5
        | [] => r5
      if (r6.dropWhile isJsSpace).isEmpty then some ⟨nm, ⟨core ++ suf⟩⟩ else none

/-- `anyMatch`, regex `/^([a-z_][a-z0-9_]*)\s*:\s*any\s*$/i` (source
line 249): the literal `any`, case-insensitively. -/
def matchAny (t : String) : Option String :=
  match matchNameColon t.data with
  | none => none
  | some (nm, r0) =>
    match r0.dropWhile isJsSpace with
    | a :: n :: y :: r1 =>
      if a.toLower == 'a' && n.toLower == 'n' && y.toLower == 'y' &&
         (r1.dropWhile isJsSpace).isEmpty then some nm else none
    | _ => none

/-- `packageNameOnlyMatch`, regex `/^([a-z_][a-z0-9_]*)\s*:\s*$/i` (source
line 258): a bare key with nothing after the colon. -/
def matchNameOnly (t : String) : Option String :=
  match matchNameColon t.data with
  | none => none
  | some (nm, r0) => if (r0.dropWhile isJsSpace).isEmpty then some nm else none

/-- The scan loop of `parsePubspecDependencies` (source lines 204-271),
as a recursion over the remaining lines carrying the `inDependencies` /
`inDevDependencies` flags.  The next-line lookahead
`lines[i + 1]?.trim() || ''` of line 260 is `jsTrim` of the head of the
remaining lines (or of `""` when none remains). -/
def scanLines : List String → Bool → Bool → List DeclaredDependency
  | [], _, _ => []
  | line :: rest, inDep, inDev =>
    let t := jsTrim line
    if t = "" || strStarts t "#" then scanLines rest inDep inDev
    else if headerMatches line "dependencies" then scanLines rest true false
    else if headerMatches line "dev_dependencies" then scanLines rest false true
    else if !strStarts line " " && !strStarts line "\t" && strEnds t ":" then
      scanLines rest false false
    else if inDep || inDev then
      match matchSimple t with
      | some d => d :: scanLines rest inDep inDev
      | none =>
        match matchCaret t with
        | some d => d :: scanLines rest inDep inDev
        | none =>
          match matchAny t with
          | some nm => ⟨nm, "any"⟩ :: scanLines rest inDep inDev
          | none =>
            match matchNameOnly t with
            | some nm =>
              let nx := jsTrim (rest.headD "")
              if strStarts nx "path:" then ⟨nm, "path"⟩ :: scanLines rest inDep inDev
              else if strStarts nx "git:" then ⟨nm, "git"⟩ :: scanLines rest inDep inDev
              else if strStarts nx "sdk:" then ⟨nm, "sdk"⟩ :: scanLines rest inDep inDev
              else scanLines rest inDep inDev
            | none => scanLines rest inDep inDev
    else scanLines rest inDep inDev

/-- The final filter of source lines 273-278: drop the platform SDK package
names and every `sdk`-sentinel entry. -/
def keepDependency (d : DeclaredDependency) : Bool :=
  d.name != "flutter" && d.name != "flutter_test" &&
  d.name != "flutter_localizations" && d.version != "sdk"

/-- Extraction from an already-split line list. -/
def extractDeps (lines : List String) : List DeclaredDependency :=
  (scanLines lines false false).filter keepDependency

/-- `parsePubspecDependencies` (source lines 198-279). -/
def parsePubspecDependencies (content : String) : List DeclaredDependency :=
  extractDeps (splitLines content)

/-! ## Health classification and report (source lines 6-15 and 108-180) -/

/-- The `latest` object of `PackageDetails` (from `pubDevApi.ts`), reduced
to the one field the classifier reads (`details?.latest?.version`,
source line 138). -/
structure LatestInfo where
  version : String
deriving DecidableEq, Repr

/-- `PackageDetails` as consumed by the classifier.  The optional-chaining
access `details?.latest?.version` is modelled by an `Option` field. -/
structure PackageDetails where
  latest : Option LatestInfo
deriving DecidableEq, Repr

/-- `PackageScore` as consumed by the classifier (`score?.tags?`, source
lines 139-140): only the optionally present tag list matters. -/
structure PackageScore where
  tags : Option (List String)
deriving DecidableEq, Repr

/-- The settled outcome of the two fetches for one dependency (source
lines 131-162): `ok` carries the results of `getPackageDetails` and
`getPackageScore`, each individually `null` when its own `.catch` fired;
`failed` is the outer `catch` branch of lines 153-161. -/
inductive FetchResult where
  | ok (details : Option PackageDetails) (score : Option PackageScore)
  | failed
deriving DecidableEq, Repr

/-- `score?.tags?.includes(tag) || false` (source lines 139-140). -/
def tagsInclude (score : Option PackageScore) (tag : String) : Bool :=
  match score with
  | none => false
  | some s =>
    match s.tags with
    | none => false
    | some ts => ts.contains tag

/-- The `InstalledPackage` record (source lines 6-15), without the opaque
`details`/`score` payloads, which no claim and no classification or
ordering step reads. -/
structure InstalledPackage where
  name : String
  currentVersion : String
  latestVersion : Option String := none
  isDeprecated : Bool
  isDiscontinued : Bool
  isOutdated : Bool
deriving DecidableEq, Repr

/-- Building one `InstalledPackage` from one dependency and its settled
fetch outcome (source lines 131-162).  In the `ok` branch the
`latestVersion ? ... : false` conditional of line 141 tests JavaScript
truthiness, so an empty latest-version string also yields `false`. -/
def classify (dep : DeclaredDependency) (r : FetchResult) : InstalledPackage :=
  match r with
  | .failed =>
    { name := dep.name, currentVersion := dep.version, latestVersion := none,
      isDeprecated := false, isDiscontinued := false, isOutdated := false }
  | .ok details score =>
    let latestVersion : Option String :=
      match details with
      | none => none
      | some d =>
        match d.latest with
        | none => none
        | some li => some li.version
    { name := dep.name
      currentVersion := dep.version
      latestVersion := latestVersion
      isDeprecated := tagsInclude score "is:deprecated"
      isDiscontinued := tagsInclude score "is:discontinued"
      isOutdated :=
        match latestVersion with
        | none => false
        | some v => if v = "" then false else isVersionOutdated dep.version v }

/-- The per-dependency classification of the whole list, one record per
dependency, each depending only on its own fetch outcome (the
`dependencies.map` of source line 131 awaited on line 164). -/
def buildRecords (deps : List DeclaredDependency) (outcomes : List FetchResult) :
    List InstalledPackage :=
  List.zipWith classify deps outcomes

/-- `a.name.localeCompare(b.name)` (source line 170), modelled as code-unit
lexicographic comparison returning -1, 0 or 1. -/
def nameCompare (a b : String) : Int :=
  if strLt a b then -1 else if strLt b a then 1 else 0

/-- The sort comparator of source lines 166-171.  The first key tested is
`isDeprecated`, then `isDiscontinued`, then `isOutdated`, then the name. -/
def pkgCompare (a b : InstalledPackage) : Int :=
  if a.isDeprecated != b.isDeprecated then (if a.isDeprecated then -1 else 1)
  else if a.isDiscontinued != b.isDiscontinued then (if a.isDiscontinued then -1 else 1)
  else if a.isOutdated != b.isOutdated then (if a.isOutdated then -1 else 1)
  else nameCompare a.name b.name

/-- Comparator-nonpositive relation: `a` may be placed before `b`. -/
def pkgLE (a b : InstalledPackage) : Prop := pkgCompare a b ≤ 0

instance : DecidableRel pkgLE :=
  fun a b => inferInstanceAs (Decidable (pkgCompare a b ≤ 0))

/-- `this.installedPackages.sort(...)` (source line 166): JavaScript
`Array.prototype.sort` is a stable comparison sort, modelled by insertion
sort with the comparator relation. -/
def sortPackages (ps : List InstalledPackage) : List InstalledPackage :=
  List.insertionSort pkgLE ps

/-- The sorted report built from the extracted dependencies and their
settled fetch outcomes (source lines 131-171). -/
def buildReport (deps : List DeclaredDependency) (outcomes : List FetchResult) :
    List InstalledPackage :=
  sortPackages (buildRecords deps outcomes)

/-- Severity rank encoding the comparator's flag order: deprecated is the
most significant bit, then discontinued, then outdated; flagged records
rank lower (earlier). -/
def severityRank (p : InstalledPackage) : Nat :=
  (if p.isDeprecated then 0 else 4) +
  (if p.isDiscontinued then 0 else 2) +
  (if p.isOutdated then 0 else 1)

/-- The display order actually implemented: ascending severity rank
(deprecated-state first), ties broken by ascending name. -/
def reportLe (a b : InstalledPackage) : Prop :=
  severityRank a < severityRank b ∨
  (severityRank a = severityRank b ∧ strLt b.name a.name = false)

/-- The payload of the `updateView` message (source lines 390-395): the
optional fields of the `data` parameter, absent fields defaulted. -/
structure ViewUpdate where
  packages : Option (List InstalledPackage) := none
  loading : Bool := false
  error : Option String := none
  empty : Bool := false
deriving DecidableEq, Repr

/-- The terminal `updateView` call of one `loadInstalledPackages` cycle
(source lines 108-180) as a function of the manifest lookup result (`none`
models `findPubspecYaml` returning no path) and of the settled fetch
outcome of each dependency.  Line 119 reports the missing manifest, line
127 the empty extraction, line 173 the sorted report. -/
def loadFinalUpdate (manifest : Option String)
    (fetch : DeclaredDependency → FetchResult) : ViewUpdate :=
  match manifest with
  | none => { error := some "No pubspec.yaml found in workspace" }
  | some content =>
    let deps := parsePubspecDependencies content
    if deps.length = 0 then { packages := some [], empty := true }
    else { packages := some (sortPackages (deps.map (fun d => classify d (fetch d)))) }

/-- A record that is deprecated but not discontinued (and first in name
order), used to exercise the sort comparator. -/
def depNotDisc : InstalledPackage :=
  { name := "a", currentVersion := "1.0.0", latestVersion := none,
    isDeprecated := true, isDiscontinued := false, isOutdated := false }

/-- A record that is discontinued but not deprecated. -/
def discNotDep : InstalledPackage :=
  { name := "b", currentVersion := "1.0.0", latestVersion := none,
    isDeprecated := false, isDiscontinued := true, isOutdated := false }

/-- A manifest whose dependencies section declares the same package name
twice with different versions. -/
def dupManifest : String := "dependencies:\n  foo: 1.0.0\n  foo: 2.0.0\n"

/-! ## Helper lemmas -/

/-- The unrolled comparison loop never reports a triple outdated against
itself. -/
theorem outdatedTriples_self (c : Int × Int × Int) : outdatedTriples c c = false := by
  obtain ⟨c0, c1, c2⟩ := c
  simp [outdatedTriples]

/-- The comparison loop cannot report outdated in both directions. -/
theorem outdatedTriples_asymm (c l : Int × Int × Int) :
    (outdatedTriples c l && outdatedTriples l c) = false := by
  obtain ⟨c0, c1, c2⟩ := c
  obtain ⟨l0, l1, l2⟩ := l
  simp only [outdatedTriples]
  split_ifs <;> simp_all <;> omega

/-- The source's loop (strict comparisons both ways) agrees with the
specification's first-differing-component description. -/
theorem outdatedTriples_eq_firstDiff (c l : Int × Int × Int) :
    outdatedTriples c l = firstDiffOutdated c l := by
  obtain ⟨c0, c1, c2⟩ := c
  obtain ⟨l0, l1, l2⟩ := l
  simp only [outdatedTriples, firstDiffOutdated]
  split_ifs <;> simp_all <;> omega

/-- Lexicographic strict order is asymmetric. -/
theorem charsLt_asymm : ∀ as bs : List Char,
    charsLt as bs = true → charsLt bs as = true → False := by
  intro as
  induction as with
  | nil =>
    intro bs h1 h2
    cases bs with
    | nil => simp [charsLt] at h1
    | cons b bs => simp [charsLt] at h2
  | cons a as ih =>
    intro bs h1 h2
    cases bs with
    | nil => simp [charsLt] at h1
    | cons b bs =>
      rcases Nat.lt_trichotomy a.toNat b.toNat with h | h | h
      · have h' : ¬ b.toNat < a.toNat := by omega
        simp [charsLt, h', Nat.lt_irrefl, Nat.lt_asymm h] at h2
        omega
      · have h' : ¬ a.toNat < b.toNat := by omega
        have h'' : ¬ b.toNat < a.toNat := by omega
        simp [charsLt, h', h''] at h1 h2
        exact ih bs h1 h2
      · have h' : ¬ a.toNat < b.toNat := by omega
        simp [charsLt, h', h] at h1

/-- From `bs ≤ as` and `as < cs` conclude `bs < cs` (on the code-unit
lexicographic order). -/
theorem charsLt_le_lt : ∀ as bs cs : List Char,
    charsLt as bs = false → charsLt as cs = true → charsLt bs cs = true := by
  intro as
  induction as with
  | nil =>
    intro bs cs h1 h2
    cases bs with
    | nil => exact h2
    | cons b bs => simp [charsLt] at h1
  | cons a as ih =>
    intro bs cs h1 h2
    cases bs with
    | nil =>
      cases cs with
      | nil => simp [charsLt] at h2
      | cons c cs => simp [charsLt]
    | cons b bs =>
      cases cs with
      | nil => simp [charsLt] at h2
      | cons c cs =>
        rcases Nat.lt_trichotomy a.toNat b.toNat with hab | hab | hab
        · simp [charsLt, hab] at h1
        · have h1' : ¬ a.toNat < b.toNat := by omega
          have h1'' : ¬ b.toNat < a.toNat := by omega
          simp [charsLt, h1', h1''] at h1
          rcases Nat.lt_trichotomy a.toNat c.toNat with hac | hac | hac
          · have : a.toNat = b.toNat := by omega
            simp [charsLt]
            omega
          · have hx : ¬ a.toNat < c.toNat := by omega
            have hy : ¬ c.toNat < a.toNat := by omega
            simp [charsLt, hx, hy] at h2
            have hbc1 : ¬ b.toNat < c.toNat := by omega
            have hbc2 : ¬ c.toNat < b.toNat := by omega
            simp [charsLt, hbc1, hbc2]
            exact ih bs cs h1 h2
          · have hx : ¬ a.toNat < c.toNat := by omega
            simp [charsLt, hx, hac] at h2
        · rcases Nat.lt_trichotomy a.toNat c.toNat with hac | hac | hac
          · simp [charsLt]
            omega
          · simp [charsLt]
            omega
          · have hx : ¬ a.toNat < c.toNat := by omega
            simp [charsLt, hx, hac] at h2

/-- The name comparator is nonpositive exactly when the second name is not
strictly below the first. -/
theorem nameCompare_nonpos_iff (a b : String) :
    nameCompare a b ≤ 0 ↔ strLt b a = false := by
  unfold nameCompare
  by_cases h1 : strLt a b = true
  · have h2 : strLt b a = false := by
      by_cases h2 : strLt b a = true
      · exact absurd (charsLt_asymm _ _ h1 h2) (fun f => f)
      · simpa using h2
    simp [h1, h2]
  · simp only [Bool.not_eq_true] at h1
    by_cases h2 : strLt b a = true
    · simp [h1, h2]
    · simp only [Bool.not_eq_true] at h2
      simp [h1, h2]

/-- The comparator of source lines 166-171 is nonpositive exactly in the
deprecated-first lexicographic display order `reportLe`. -/
theorem pkgCompare_nonpos_iff (a b : InstalledPackage) :
    pkgCompare a b ≤ 0 ↔ reportLe a b := by
  unfold pkgCompare reportLe severityRank
  cases hda : a.isDeprecated <;> cases hdb : b.isDeprecated <;>
    cases hca : a.isDiscontinued <;> cases hcb : b.isDiscontinued <;>
      cases hoa : a.isOutdated <;> cases hob : b.isOutdated <;>
        simp [nameCompare_nonpos_iff]

/-- Totality of the comparator relation. -/
theorem pkgLE_total : ∀ a b : InstalledPackage, pkgLE a b ∨ pkgLE b a := by
  intro a b
  unfold pkgLE
  rw [pkgCompare_nonpos_iff, pkgCompare_nonpos_iff]
  unfold reportLe
  rcases Nat.lt_trichotomy (severityRank a) (severityRank b) with h | h | h
  · exact Or.inl (Or.inl h)
  · by_cases hn : strLt b.name a.name = true
    · refine Or.inr (Or.inr ⟨h.symm, ?_⟩)
      by_cases hm : strLt a.name b.name = true
      · exact absurd (charsLt_asymm _ _ hm hn) (fun f => f)
      · simpa using hm
    · exact Or.inl (Or.inr ⟨h, by simpa using hn⟩)
  · exact Or.inr (Or.inl h)

/-- Transitivity of the comparator relation. -/
theorem pkgLE_trans : ∀ a b c : InstalledPackage, pkgLE a b → pkgLE b c → pkgLE a c := by
  intro a b c hab hbc
  unfold pkgLE at *
  rw [pkgCompare_nonpos_iff] at *
  unfold reportLe at *
  rcases hab with h1 | ⟨h1, h1n⟩ <;> rcases hbc with h2 | ⟨h2, h2n⟩
  · exact Or.inl (by omega)
  · exact Or.inl (by omega)
  · exact Or.inl (by omega)
  · refine Or.inr ⟨by omega, ?_⟩
    by_cases h : strLt c.name a.name = true
    · have hlt : strLt b.name a.name = true :=
        charsLt_le_lt c.name.data b.name.data a.name.data h2n h
      rw [hlt] at h1n
      exact absurd h1n (by simp)
    · simpa using h

/-- Sorting preserves the number of records. -/
theorem sortPackages_length (ps : List InstalledPackage) :
    (sortPackages ps).length = ps.length :=
  (List.perm_insertionSort pkgLE ps).length_eq

/-! ## Claim theorems -/

/-- C6: for every latest string, `isVersionOutdated` returns false when the
current version is empty or one of the sentinels `any`, `path`, `git`; and
for every current string it returns false when the latest string is empty
(source lines 281-285). -/
theorem isOutdated_short_circuit :
    (∀ l, isVersionOutdated "" l = false) ∧
    (∀ l, isVersionOutdated "any" l = false) ∧
    (∀ l, isVersionOutdated "path" l = false) ∧
    (∀ l, isVersionOutdated "git" l = false) ∧
    (∀ c, isVersionOutdated c "" = false) := by
  refine ⟨fun l => ?_, fun l => ?_, fun l => ?_, fun l => ?_, fun c => ?_⟩ <;>
    simp [isVersionOutdated]

/-- C10: the staleness comparison is asymmetric — for every pair of strings,
`isVersionOutdated a b` and `isVersionOutdated b a` are never both true. -/
theorem isOutdated_asymmetric (a b : String) :
    (isVersionOutdated a b && isVersionOutdated b a) = false := by
  unfold isVersionOutdated
  split
  · simp
  · split
    · simp
    · exact outdatedTriples_asymm _ _

/-- C5: for nonempty, non-sentinel version strings, `isVersionOutdated`
strips the operator, quote and whitespace characters, splits on dots, reads
up to three components as integers (missing or unparseable components count
as 0) and is true exactly when, at the first differing component, latest is
strictly greater; with the three concrete examples of the specification. -/
theorem isOutdated_componentwise_spec (a b : String)
    (ha1 : a ≠ "") (hb1 : b ≠ "") (ha2 : a ≠ "any") (ha3 : a ≠ "path") (ha4 : a ≠ "git") :
    isVersionOutdated a b = isOutdatedSpec a b ∧
    isVersionOutdated "1.2.3" "1.3.0" = true ∧
    isVersionOutdated "2.0.0" "1.9.9" = false ∧
    isVersionOutdated "1.0.0" "1.0.0" = false := by
  refine ⟨?_, by decide, by decide, by decide⟩
  unfold isVersionOutdated isOutdatedSpec
  simp [ha1, hb1, ha2, ha3, ha4, outdatedTriples_eq_firstDiff]

/-- Witness for C5 at `a = "1.2.3"`, `b = "1.3.0"`. -/
theorem isOutdated_componentwise_spec_witness :
    ("1.2.3" ≠ "" ∧ "1.3.0" ≠ "") ∧
    isVersionOutdated "1.2.3" "1.3.0" = isOutdatedSpec "1.2.3" "1.3.0" :=
  ⟨⟨by decide, by decide⟩,
   (isOutdated_componentwise_spec "1.2.3" "1.3.0" (by decide) (by decide)
      (by decide) (by decide) (by decide)).1⟩

/-- C3 counterexample: `"1.2.3-alpha"` and `"1.2.3"` have equal numeric
major, minor and patch components and differ only in a pre-release suffix,
yet `isVersionOutdated` reports the first outdated against the second: the
suffixed component `"3-alpha"` is `NaN` under JavaScript `Number` and is
coerced to `0`, which is then strictly below `3`. -/
theorem isOutdated_prerelease_counterexample :
    isVersionOutdated "1.2.3-alpha" "1.2.3" = true := by decide

/-- C3 as amended: `isVersionOutdated a b = false` whenever the two strings
have equal component triples under the code's parse, where a component
carrying a pre-release suffix parses as 0 (not as its numeric prefix). -/
theorem isOutdated_equal_parsed_components (a b : String)
    (h : versionTriple a = versionTriple b) :
    isVersionOutdated a b = false := by
  unfold isVersionOutdated
  split
  · rfl
  · rw [h]
    exact outdatedTriples_self _

/-- Witness for the amended C3: two different pre-release strings whose
parsed triples agree (both patch components parse as 0). -/
theorem isOutdated_equal_parsed_components_witness :
    versionTriple "1.2.3-alpha" = versionTriple "1.2.4-beta" ∧
    isVersionOutdated "1.2.3-alpha" "1.2.4-beta" = false :=
  ⟨by decide, isOutdated_equal_parsed_components _ _ (by decide)⟩

/-- C1 counterexample: the comparator of source lines 166-171 tests
`isDeprecated` before `isDiscontinued`, so for a record that is deprecated
but not discontinued and a record that is discontinued but not deprecated,
the deprecated one precedes — the sorted report is `[depNotDisc, discNotDep]`,
contradicting the claim that the discontinued record comes first. -/
theorem sort_discontinued_primary_counterexample :
    depNotDisc.isDeprecated = true ∧ depNotDisc.isDiscontinued = false ∧
    discNotDep.isDiscontinued = true ∧ discNotDep.isDeprecated = false ∧
    sortPackages [discNotDep, depNotDisc] = [depNotDisc, discNotDep] :=
  ⟨rfl, rfl, rfl, rfl, by decide⟩

/-- C1 as amended: the sort's primary key is deprecated-state (every
deprecated record precedes every non-deprecated record); within equal
deprecated-state discontinued precedes non-discontinued, then outdated
precedes non-outdated, and remaining ties are ordered ascending by name.
Every sorted report is pairwise ordered by this relation and is a
permutation of its input records. -/
theorem report_sort_order (ps : List InstalledPackage) :
    (sortPackages ps).Pairwise reportLe ∧ (sortPackages ps).Perm ps := by
  constructor
  · haveI : IsTotal InstalledPackage pkgLE := ⟨pkgLE_total⟩
    haveI : IsTrans InstalledPackage pkgLE := ⟨fun a b c => pkgLE_trans a b c⟩
    have h := List.sorted_insertionSort pkgLE ps
    exact h.imp (fun hab => (pkgCompare_nonpos_iff _ _).1 hab)
  · exact List.perm_insertionSort pkgLE ps

/-- C7: a manifest with a `dependencies:` section containing `foo: ^1.2.0`,
a `dev_dependencies:` section containing `bar: 2.0.0`, and an unrelated
zero-indent top-level key yields exactly the two records, with the operator
prefix stripped, and the lines under the unrelated header contribute
nothing. -/
theorem parse_two_sections_example :
    parsePubspecDependencies
      "dependencies:\n  foo: ^1.2.0\ndev_dependencies:\n  bar: 2.0.0\nenvironment:\n  baz: 9.9.9\n" =
      [⟨"foo", "1.2.0"⟩, ⟨"bar", "2.0.0"⟩] := by decide

/-- C2 counterexample: a manifest declaring `foo` twice in the dependencies
section yields TWO extracted records, both occurrences in scan order — the
extractor performs no deduplication, so the extracted list neither has at
most one entry per name nor retains only the last occurrence. -/
theorem extract_no_dedup_counterexample :
    parsePubspecDependencies dupManifest = [⟨"foo", "1.0.0"⟩, ⟨"foo", "2.0.0"⟩] ∧
    (parsePubspecDependencies dupManifest).map DeclaredDependency.name = ["foo", "foo"] :=
  ⟨by decide, by decide⟩

/-- C2 as amended: the extractor keeps every matching declaration, in file
scan order, with no per-name deduplication: two dependency lines inside an
open `dependencies:` section each contribute their own record (even when
they declare the same name). -/
theorem extract_retains_all_declarations (l1 l2 : String) (d1 d2 : DeclaredDependency)
    (h1t : ¬ jsTrim l1 = "") (h2t : ¬ jsTrim l2 = "")
    (h1c : strStarts (jsTrim l1) "#" = false) (h2c : strStarts (jsTrim l2) "#" = false)
    (h1h : headerMatches l1 "dependencies" = false)
    (h1h' : headerMatches l1 "dev_dependencies" = false)
    (h2h : headerMatches l2 "dependencies" = false)
    (h2h' : headerMatches l2 "dev_dependencies" = false)
    (h1i : strStarts l1 " " = true) (h2i : strStarts l2 " " = true)
    (h1m : matchSimple (jsTrim l1) = some d1) (h2m : matchSimple (jsTrim l2) = some d2)
    (h1k : keepDependency d1 = true) (h2k : keepDependency d2 = true) :
    extractDeps ["dependencies:", l1, l2] = [d1, d2] := by
  have step1 : scanLines ["dependencies:", l1, l2] false false =
      scanLines [l1, l2] true false := rfl
  have step2 : scanLines [l1, l2] true false = d1 :: scanLines [l2] true false := by
    simp [scanLines, h1t, h1c, h1h, h1h', h1i, h1m]
  have step3 : scanLines [l2] true false = [d2] := by
    simp [scanLines, h2t, h2c, h2h, h2h', h2i, h2m]
  unfold extractDeps
  rw [step1, step2, step3]
  simp [h1k, h2k]

/-- Witness for the amended C2: the duplicated `foo` manifest of the
counterexample, line by line. -/
theorem extract_retains_all_declarations_witness :
    matchSimple (jsTrim "  foo: 1.0.0") = some ⟨"foo", "1.0.0"⟩ ∧
    extractDeps ["dependencies:", "  foo: 1.0.0", "  foo: 2.0.0"] =
      [⟨"foo", "1.0.0"⟩, ⟨"foo", "2.0.0"⟩] :=
  ⟨by decide,
   extract_retains_all_declarations "  foo: 1.0.0" "  foo: 2.0.0"
     ⟨"foo", "1.0.0"⟩ ⟨"foo", "2.0.0"⟩ (by decide) (by decide) (by decide) (by decide)
     (by decide) (by decide) (by decide) (by decide) (by decide) (by decide)
     (by decide) (by decide) (by decide) (by decide)⟩

/-- C8: inside an open dependency section, a bare `name:` line makes the
scanner inspect the next physical line by index: if its trimmed text starts
with `path:`, `git:` or `sdk:` the corresponding sentinel version is
recorded (the `sdk` entries being removed later by `keepDependency`);
otherwise no record is emitted for that name. -/
theorem bare_key_next_line_policy (line : String) (rest : List String)
    (inDep inDev : Bool) (nm : String)
    (hsec : (inDep || inDev) = true)
    (ht : ¬ jsTrim line = "") (hc : strStarts (jsTrim line) "#" = false)
    (hh1 : headerMatches line "dependencies" = false)
    (hh2 : headerMatches line "dev_dependencies" = false)
    (hi : strStarts line " " = true)
    (h1 : matchSimple (jsTrim line) = none) (h2 : matchCaret (jsTrim line) = none)
    (h3 : matchAny (jsTrim line) = none) (h4 : matchNameOnly (jsTrim line) = some nm) :
    scanLines (line :: rest) inDep inDev =
      (if strStarts (jsTrim (rest.headD "")) "path:" then
        ⟨nm, "path"⟩ :: scanLines rest inDep inDev
      else if strStarts (jsTrim (rest.headD "")) "git:" then
        ⟨nm, "git"⟩ :: scanLines rest inDep inDev
      else if strStarts (jsTrim (rest.headD "")) "sdk:" then
        ⟨nm, "sdk"⟩ :: scanLines rest inDep inDev
      else scanLines rest inDep inDev) := by
  simp [scanLines, ht, hc, hh1, hh2, hi, hsec, h1, h2, h3, h4]

/-- Witness for C8: `baz:` followed by an indented `path: ../baz` line
yields the record `{name := baz, version := path}`. -/
theorem bare_key_next_line_policy_witness :
    matchNameOnly (jsTrim "  baz:") = some "baz" ∧
    scanLines ["  baz:", "    path: ../baz"] true false = [⟨"baz", "path"⟩] := by
  refine ⟨by decide, ?_⟩
  rw [bare_key_next_line_policy "  baz:" ["    path: ../baz"] true false "baz"
    (by decide) (by decide) (by decide) (by decide) (by decide) (by decide)
    (by decide) (by decide) (by decide) (by decide)]
  decide

/-- C4: for any dependency list and any assignment of settled fetch
outcomes of the same length in which exactly the i-th fetch failed, the
classification still yields one record per dependency (and so does the
sorted report); the failed dependency's record has `latestVersion` absent
and all three flags false, and every record equals the pure classification
of its own dependency and outcome alone. -/
theorem report_isolates_fetch_failure
    (deps : List DeclaredDependency) (outcomes : List FetchResult) (i : Nat)
    (hlen : outcomes.length = deps.length)
    (hi : i < deps.length) (hi2 : i < outcomes.length)
    (hfail : outcomes.get ⟨i, hi2⟩ = FetchResult.failed)
    (honly : ∀ j (hj : j < outcomes.length), j ≠ i →
      ¬ outcomes.get ⟨j, hj⟩ = FetchResult.failed) :
    (buildRecords deps outcomes).length = deps.length ∧
    (buildReport deps outcomes).length = deps.length ∧
    (∀ hri : i < (buildRecords deps outcomes).length,
      (buildRecords deps outcomes).get ⟨i, hri⟩ =
        { name := (deps.get ⟨i, hi⟩).name,
          currentVersion := (deps.get ⟨i, hi⟩).version,
          latestVersion := none,
          isDeprecated := false, isDiscontinued := false, isOutdated := false }) ∧
    (∀ j (hj : j < deps.length) (hj2 : j < outcomes.length)
       (hrj : j < (buildRecords deps outcomes).length),
      (buildRecords deps outcomes).get ⟨j, hrj⟩ =
        classify (deps.get ⟨j, hj⟩) (outcomes.get ⟨j, hj2⟩)) := by
  have hblen : (buildRecords deps outcomes).length = deps.length := by
    simp [buildRecords, List.length_zipWith, hlen]
  refine ⟨hblen, ?_, ?_, ?_⟩
  · rw [buildReport, sortPackages_length, hblen]
  · intro hri
    have h := @List.getElem_zipWith _ _ _ classify deps outcomes i hri
    simp only [buildRecords, List.get_eq_getElem]
    rw [h]
    have : outcomes[i] = FetchResult.failed := by
      rw [← hfail]
      simp [List.get_eq_getElem]
    rw [this]
    rfl
  · intro j hj hj2 hrj
    have h := @List.getElem_zipWith _ _ _ classify deps outcomes j hrj
    simp only [buildRecords, List.get_eq_getElem]
    rw [h]

/-- Witness for C4: two dependencies, the first fetch failed, the second
succeeded with a newer latest version. -/
theorem report_isolates_fetch_failure_witness :
    (buildRecords [⟨"aaa", "1.0.0"⟩, ⟨"bbb", "1.0.0"⟩]
        [FetchResult.failed,
         FetchResult.ok (some ⟨some ⟨"2.0.0"⟩⟩) (some ⟨some []⟩)]).length = 2 ∧
    (buildRecords [⟨"aaa", "1.0.0"⟩, ⟨"bbb", "1.0.0"⟩]
        [FetchResult.failed,
         FetchResult.ok (some ⟨some ⟨"2.0.0"⟩⟩) (some ⟨some []⟩)]).get ⟨0, by decide⟩ =
      { name := "aaa", currentVersion := "1.0.0", latestVersion := none,
        isDeprecated := false, isDiscontinued := false, isOutdated := false } := by
  have h := report_isolates_fetch_failure
    [⟨"aaa", "1.0.0"⟩, ⟨"bbb", "1.0.0"⟩]
    [FetchResult.failed, FetchResult.ok (some ⟨some ⟨"2.0.0"⟩⟩) (some ⟨some []⟩)]
    0 (by decide) (by decide) (by decide) (by decide) (by decide)
  exact ⟨h.1, h.2.2.1 (by decide)⟩

/-- C9: a cycle with no readable manifest reports the distinct
"no pubspec.yaml found" error without extracting; a found manifest with
zero extracted dependencies reports the distinct empty outcome; a manifest
with at least one dependency reports a nonempty package list; and the three
outcomes are pairwise distinguishable. -/
theorem load_outcomes_distinguishable (fetch : DeclaredDependency → FetchResult)
    (cEmpty cFull : String)
    (hE : parsePubspecDependencies cEmpty = [])
    (hF : ¬ parsePubspecDependencies cFull = []) :
    loadFinalUpdate none fetch = { error := some "No pubspec.yaml found in workspace" } ∧
    loadFinalUpdate (some cEmpty) fetch = { packages := some [], empty := true } ∧
    (loadFinalUpdate (some cFull) fetch).empty = false ∧
    (loadFinalUpdate (some cFull) fetch).error = none ∧
    (∃ ps, (loadFinalUpdate (some cFull) fetch).packages = some ps ∧ ¬ ps = []) ∧
    ¬ loadFinalUpdate none fetch = loadFinalUpdate (some cEmpty) fetch ∧
    ¬ loadFinalUpdate none fetch = loadFinalUpdate (some cFull) fetch ∧
    ¬ loadFinalUpdate (some cEmpty) fetch = loadFinalUpdate (some cFull) fetch := by
  have hlen : ¬ (parsePubspecDependencies cFull).length = 0 := by
    simpa [List.length_eq_zero] using hF
  have hU1 : loadFinalUpdate none fetch =
      { error := some "No pubspec.yaml found in workspace" } := rfl
  have hU2 : loadFinalUpdate (some cEmpty) fetch = { packages := some [], empty := true } := by
    simp [loadFinalUpdate, hE]
  have hU3 : loadFinalUpdate (some cFull) fetch =
      { packages := some (sortPackages ((parsePubspecDependencies cFull).map
          (fun d => classify d (fetch d)))) } := by
    simp [loadFinalUpdate, hlen]
  have hne : ¬ sortPackages ((parsePubspecDependencies cFull).map
      (fun d => classify d (fetch d))) = [] := by
    intro hx
    have := congrArg List.length hx
    rw [sortPackages_length, List.length_map] at this
    exact hlen this
  refine ⟨hU1, hU2, by rw [hU3], by rw [hU3], ⟨_, by rw [hU3], hne⟩, ?_, ?_, ?_⟩
  · rw [hU1, hU2]
    intro hx
    exact absurd (congrArg ViewUpdate.error hx) (by simp)
  · rw [hU1, hU3]
    intro hx
    exact absurd (congrArg ViewUpdate.error hx) (by simp)
  · rw [hU2, hU3]
    intro hx
    have hp := congrArg ViewUpdate.packages hx
    simp at hp
    exact hne hp.symm.symm

/-- Witness for C9: an empty-section manifest and a one-dependency
manifest, with every fetch failing. -/
theorem load_outcomes_distinguishable_witness :
    parsePubspecDependencies "dependencies:\n" = [] ∧
    ¬ loadFinalUpdate (some "dependencies:\n") (fun _ => FetchResult.failed) =
      loadFinalUpdate (some "dependencies:\n  foo: 1.0.0\n") (fun _ => FetchResult.failed) :=
  ⟨by decide,
   (load_outcomes_distinguishable (fun _ => FetchResult.failed)
      "dependencies:\n" "dependencies:\n  foo: 1.0.0\n"
      (by decide) (by decide)).2.2.2.2.2.2.2⟩
